import Mathlib

/-!
Verification development for the RNN-cell module `h_cell.py` of the
repository `Leechung/LSTM_cells`.

The module defines three recurrent cells (`LSTMCell`, `LN_LSTMCell`,
`H_LSTMCell`) plus helpers (`_Linear`, `Layer_Normalization`,
`_hyper_norm`, `_hyper_bias`, `lstm_ortho_initializer`).  We embed the
numeric semantics of one `call` step shallowly:

* a 2-D tensor of reals is a total function `Mat := ℕ → ℕ → ℝ` from
  (row, column) to value; widths appear only where an operation needs
  them (the inner dimension of a matmul, the feature count of a
  normalization, the split point of a concatenation).  All cells are
  modelled in the default `state_is_tuple=True` form, so a state is a
  pair of matrices.
* learned variables (`kernel`, `bias`, peephole diagonals, gains, ...)
  are parameters of the step functions, bundled in weight structures.
* the lazy once-only variable creation is modelled separately as a
  store-passing allocation semantics (`getVar` / `allocCall`): TensorFlow
  names a variable inside nested variable scopes, creates it if the name
  is unknown and (because `base_layer.Layer.__call__` re-enters the
  layer's scope with `reuse=True` on every call after the first) returns
  the existing variable otherwise.
* Python-level failures (the `AttributeError` of the `H_LSTMCell`
  projection branch, the `NameError` of the `np`-less initializer) are
  modelled with `Except String`, with attribute sets and module-level
  bound names transcribed from the source.
-/

/-- A 2-D real tensor: row index, column index, value.  Widths are kept
alongside, not inside, the type. -/
abbrev Mat : Type := ℕ → ℕ → ℝ

/-- `math_ops.sigmoid`: the logistic function. -/
noncomputable def sigmoid (x : ℝ) : ℝ := 1 / (1 + Real.exp (-x))

/-- `math_ops.matmul a b` where `a` has `inner` columns and `b` has
`inner` rows. -/
noncomputable def matmul (a b : Mat) (inner : ℕ) : Mat :=
  fun r k => ∑ t in Finset.range inner, a r t * b t k

/-- `array_ops.concat([x, y], 1)` where `x` has `w` columns. -/
def concatCols (x y : Mat) (w : ℕ) : Mat :=
  fun r k => if k < w then x r k else y r (k - w)

/-- Block `blk` of `array_ops.split(value, 4, axis=1)` when every block
has `n` columns. -/
def splitCol (x : Mat) (blk n : ℕ) : Mat :=
  fun r u => x r (blk * n + u)

/-- Block `blk` of `tf.split(v, 4, 0)` on a 1-D tensor of block size `n`. -/
def splitVec (v : ℕ → ℝ) (blk n : ℕ) : ℕ → ℝ :=
  fun u => v (blk * n + u)

/-- `clip_ops.clip_by_value t lo hi`. -/
noncomputable def clipByValue (t lo hi : ℝ) : ℝ := min (max t lo) hi

/-- Constructor arguments of `LSTMCell.__init__` (and of
`LN_LSTMCell.__init__`, whose signature is the same) that influence the
numeric step.  `initializer`, `num_unit_shards`, `num_proj_shards`,
`state_is_tuple` and `reuse` only affect variable creation or the
deprecated concatenated-state layout and are not part of the numeric
model. -/
structure LSTMConfig where
  numUnits : ℕ
  usePeepholes : Bool
  cellClip : Option ℝ
  numProj : Option ℕ
  projClip : Option ℝ
  forgetBias : ℝ

/-- The learned variables read by `LSTMCell.call`: the `_Linear`
kernel/bias pair (kernel has `input_size + num_proj` rows and
`4*num_units` columns), the three peephole diagonals, and the bias-free
projection kernel of `_Linear(m, num_proj, False)`. -/
structure LSTMWeights where
  kernel : Mat
  bias : ℕ → ℝ
  wFDiag : ℕ → ℝ
  wIDiag : ℕ → ℝ
  wODiag : ℕ → ℝ
  projKernel : Mat

/-- `self._activation = activation or math_ops.tanh` from the
constructors: `None` (the default) selects `tanh`. -/
noncomputable def lstmActivation (a : Option (ℝ → ℝ)) : ℝ → ℝ :=
  a.getD Real.tanh

/-- Python truthiness of an optional int argument such as `num_proj`:
`None` and `0` are falsy. -/
def pyTruthy : Option ℕ → Bool
  | none => false
  | some p => decide (p ≠ 0)

/-- Python `a or b` on an optional int against an int default. -/
def pyOrNat (o : Option ℕ) (d : ℕ) : ℕ :=
  if pyTruthy o then o.getD 0 else d

/-- `self._output_size` as set by `LSTMCell.__init__` (lines 344-353):
`num_proj` under `if num_proj:` (Python truthiness), else `num_units`. -/
def LSTMCell.outputSize (numUnits : ℕ) (numProj : Option ℕ) : ℕ :=
  if pyTruthy numProj then numProj.getD 0 else numUnits

/-- `lstm_matrix = self._linear1([inputs, m_prev])`: the `_Linear` map of
the column-concatenation of `inputs` (width `isz`) and `m_prev` (width
`nP`, the local `num_proj` of `call`), plus the built bias. -/
noncomputable def lstmMatrix (kernel : Mat) (bias : ℕ → ℝ) (isz nP : ℕ)
    (inputs m_prev : Mat) : Mat :=
  fun r k => matmul (concatCols inputs m_prev isz) kernel (isz + nP) r k + bias k

/-- Lines 394-449 of `LSTMCell.call`: the gate computation, the optional
peephole terms, the optional cell clipping — everything up to (and
excluding) the optional projection.  Returns `(c, m)`. -/
noncomputable def LSTMCell.coreStep (cfg : LSTMConfig) (act : ℝ → ℝ)
    (w : LSTMWeights) (isz : ℕ) (inputs c_prev m_prev : Mat) : Mat × Mat :=
  let n := cfg.numUnits
  let nP := cfg.numProj.getD n
  let lm := lstmMatrix w.kernel w.bias isz nP inputs m_prev
  let i := splitCol lm 0 n
  let j := splitCol lm 1 n
  let f := splitCol lm 2 n
  let o := splitCol lm 3 n
  let c1 : Mat :=
    if cfg.usePeepholes then
      fun r u =>
        sigmoid (f r u + cfg.forgetBias + w.wFDiag u * c_prev r u) * c_prev r u +
          sigmoid (i r u + w.wIDiag u * c_prev r u) * act (j r u)
    else
      fun r u =>
        sigmoid (f r u + cfg.forgetBias) * c_prev r u + sigmoid (i r u) * act (j r u)
  let c : Mat :=
    match cfg.cellClip with
    | none => c1
    | some cc => fun r u => clipByValue (c1 r u) (-cc) cc
  let m : Mat :=
    if cfg.usePeepholes then
      fun r u => sigmoid (o r u + w.wODiag u * c r u) * act (c r u)
    else
      fun r u => sigmoid (o r u) * act (c r u)
  (c, m)

/-- One step of `LSTMCell.call` in tuple-state form: takes `inputs` and
the state `(c_prev, m_prev)`, returns `(m, (c, m))` — the output and the
new `LSTMStateTuple`.  On top of `coreStep` this adds the projection
branch `if self._num_proj is not None:` with its optional clipping
(lines 451-470). -/
noncomputable def LSTMCell.call (cfg : LSTMConfig) (act : ℝ → ℝ)
    (w : LSTMWeights) (isz : ℕ) (inputs c_prev m_prev : Mat) :
    Mat × Mat × Mat :=
  let s := LSTMCell.coreStep cfg act w isz inputs c_prev m_prev
  let m : Mat :=
    match cfg.numProj with
    | none => s.2
    | some _ =>
      let mp := matmul s.2 w.projKernel cfg.numUnits
      match cfg.projClip with
      | none => mp
      | some pc => fun r u => clipByValue (mp r u) (-pc) pc
  (m, s.1, m)

/-- The gain/bias pair created by `Layer_Normalization.__init__` in its
own variable scope. -/
structure LNParams where
  gain : ℕ → ℝ
  bias : ℕ → ℝ

/-- The default `epsilon=1e-5` of `Layer_Normalization.__init__`; every
cell constructs its normalizers without overriding it. -/
noncomputable def lnEpsilon : ℝ := 1e-5

/-- The per-row mean of `tf.nn.moments(inputs, [1], keep_dims=True)` over
`n` feature columns. -/
noncomputable def rowMean (x : Mat) (n : ℕ) (r : ℕ) : ℝ :=
  (∑ k in Finset.range n, x r k) / n

/-- The per-row variance of `tf.nn.moments(inputs, [1], keep_dims=True)`:
the mean squared deviation from the row mean. -/
noncomputable def rowVar (x : Mat) (n : ℕ) (r : ℕ) : ℝ :=
  (∑ k in Finset.range n, (x r k - rowMean x n r) ^ 2) / n

/-- `Layer_Normalization.__call__` (lines 645-648): shift by the row
mean, scale by the square root of variance plus epsilon, then apply the
learned gain and bias. -/
noncomputable def layerNorm (p : LNParams) (eps : ℝ) (n : ℕ) (x : Mat) : Mat :=
  fun r u => (x r u - rowMean x n r) / Real.sqrt (rowVar x n r + eps) * p.gain u + p.bias u

/-- The peephole cell-state update shared verbatim by
`LN_LSTMCell.call` (line 610) and `H_LSTMCell.call` (line 898):
`c = sigmoid(f + forget_bias + ln_p1(w_f_diag*c_prev))
   + sigmoid(i + ln_p2(w_i_diag*c_prev)) * activation(j)`.
Note that, unlike the non-peephole branch and unlike `LSTMCell`, the
forget-gate sigmoid is not multiplied by `c_prev`. -/
noncomputable def peepCellUpdate (act : ℝ → ℝ) (forgetBias : ℝ)
    (wF wI : ℕ → ℝ) (p1 p2 : LNParams) (n : ℕ) (i j f c_prev : Mat) : Mat :=
  fun r u =>
    sigmoid (f r u + forgetBias + layerNorm p1 lnEpsilon n (fun r k => wF k * c_prev r k) r u) +
      sigmoid (i r u + layerNorm p2 lnEpsilon n (fun r k => wI k * c_prev r k) r u) * act (j r u)

/-- The learned variables read by `LN_LSTMCell.call`: the `_Linear`
kernel/bias, the seven `Layer_Normalization` gain/bias pairs, the
peephole diagonals, and the projection kernel. -/
structure LNLSTMWeights where
  kernel : Mat
  bias : ℕ → ℝ
  ln_i : LNParams
  ln_j : LNParams
  ln_f : LNParams
  ln_o : LNParams
  ln_p1 : LNParams
  ln_p2 : LNParams
  ln_c : LNParams
  wFDiag : ℕ → ℝ
  wIDiag : ℕ → ℝ
  wODiag : ℕ → ℝ
  projKernel : Mat

/-- One step of `LN_LSTMCell.call` (lines 550-633) in tuple-state form:
the `LSTMCell` step with each gate pre-activation passed through its own
`Layer_Normalization` (`i_norm` ... `o_norm`), the peephole terms
normalized by `p1_norm`/`p2_norm`, the new cell state normalized by
`c_norm`, and the optional projection.  `LN_LSTMCell` never applies
`cell_clip`. -/
noncomputable def LN_LSTMCell.call (cfg : LSTMConfig) (act : ℝ → ℝ)
    (w : LNLSTMWeights) (isz : ℕ) (inputs c_prev m_prev : Mat) :
    Mat × Mat × Mat :=
  let n := cfg.numUnits
  let nP := cfg.numProj.getD n
  let lm := lstmMatrix w.kernel w.bias isz nP inputs m_prev
  let i := layerNorm w.ln_i lnEpsilon n (splitCol lm 0 n)
  let j := layerNorm w.ln_j lnEpsilon n (splitCol lm 1 n)
  let f := layerNorm w.ln_f lnEpsilon n (splitCol lm 2 n)
  let o := layerNorm w.ln_o lnEpsilon n (splitCol lm 3 n)
  let c1 : Mat :=
    if cfg.usePeepholes then
      peepCellUpdate act cfg.forgetBias w.wFDiag w.wIDiag w.ln_p1 w.ln_p2 n i j f c_prev
    else
      fun r u =>
        sigmoid (f r u + cfg.forgetBias) * c_prev r u + sigmoid (i r u) * act (j r u)
  let c := layerNorm w.ln_c lnEpsilon n c1
  let m1 : Mat :=
    if cfg.usePeepholes then
      fun r u => sigmoid (o r u + w.wODiag u * c r u) * act (c r u)
    else
      fun r u => sigmoid (o r u) * act (c r u)
  let m : Mat :=
    match cfg.numProj with
    | none => m1
    | some _ =>
      let mp := matmul m1 w.projKernel n
      match cfg.projClip with
      | none => mp
      | some pc => fun r u => clipByValue (mp r u) (-pc) pc
  (m, c, m)

/-- The variables of one `_hyper_norm` scope: the biased `zw` layer
(`super_linear_w`/`super_linear_b` under scope `zw`) and the bias-free
`alpha` layer. -/
structure HyperNormWeights where
  zwKernel : Mat
  zwBias : ℕ → ℝ
  alphaKernel : Mat

/-- The variables of one `_hyper_bias` scope: the bias-free `zb` and
`beta` layers. -/
structure HyperBiasWeights where
  zbKernel : Mat
  betaKernel : Mat

/-- `_hyper_norm(layer, hyper_output, embedding_size, num_units)`
(lines 696-701): `zw = hyper_output @ zwKernel + zwBias` (summed over the
`hyperWidth` columns of the hyper output), `alpha = zw @ alphaKernel`
(summed over `embedSize`), result `alpha * layer` elementwise. -/
noncomputable def hyperNorm (layer hyperOutput : Mat) (hyperWidth embedSize : ℕ)
    (p : HyperNormWeights) : Mat :=
  let zw : Mat := fun r k => matmul hyperOutput p.zwKernel hyperWidth r k + p.zwBias k
  let alpha : Mat := matmul zw p.alphaKernel embedSize
  fun r u => alpha r u * layer r u

/-- `_hyper_bias(layer, hyper_output, embedding_size, num_units)`
(lines 704-708): `zb = hyper_output @ zbKernel`, `beta = zb @ betaKernel`,
result `layer + beta` (the 1-D `layer` broadcasts over rows). -/
noncomputable def hyperBias (layer : ℕ → ℝ) (hyperOutput : Mat)
    (hyperWidth embedSize : ℕ) (p : HyperBiasWeights) : Mat :=
  let zb : Mat := matmul hyperOutput p.zbKernel hyperWidth
  let beta : Mat := matmul zb p.betaKernel embedSize
  fun r u => layer u + beta r u

/-- `hh = tf.matmul(inputs, W_hh)` from line 834 of `H_LSTMCell.call`:
the source multiplies `inputs` (not `m_prev`) by `W_hh`. -/
noncomputable def H_hh (W_hh : Mat) (isz : ℕ) (inputs : Mat) : Mat :=
  matmul inputs W_hh isz

/-- Constructor arguments of `H_LSTMCell.__init__` that influence the
step (`cell_clip` is stored but never read by `H_LSTMCell.call`). -/
structure HConfig where
  numUnits : ℕ
  usePeepholes : Bool
  cellClip : Option ℝ
  numProj : Option ℕ
  projClip : Option ℝ
  forgetBias : ℝ
  hyperNumUnits : ℕ
  hyperEmbedSize : ℕ

/-- All learned variables read by `H_LSTMCell.call`: the inner hyper
`LSTMCell` weights, the main kernels `W_xh`/`W_hh` and bias `W_bias`,
one `HyperNormWeights` per `hyper_{i,j,f,o}{x,h}` scope, one
`HyperBiasWeights` per `hyper_{i,j,f,o}b` scope, the seven
layer-normalization pairs, the peephole diagonals and the projection
kernel. -/
structure HWeights where
  hyper : LSTMWeights
  W_xh : Mat
  W_hh : Mat
  bias : ℕ → ℝ
  hn_ix : HyperNormWeights
  hn_jx : HyperNormWeights
  hn_fx : HyperNormWeights
  hn_ox : HyperNormWeights
  hn_ih : HyperNormWeights
  hn_jh : HyperNormWeights
  hn_fh : HyperNormWeights
  hn_oh : HyperNormWeights
  hb_ib : HyperBiasWeights
  hb_jb : HyperBiasWeights
  hb_fb : HyperBiasWeights
  hb_ob : HyperBiasWeights
  ln_i : LNParams
  ln_j : LNParams
  ln_f : LNParams
  ln_o : LNParams
  ln_p1 : LNParams
  ln_p2 : LNParams
  ln_c : LNParams
  wFDiag : ℕ → ℝ
  wIDiag : ℕ → ℝ
  wODiag : ℕ → ℝ
  projKernel : Mat

/-- The configuration of the internal cell created at line 826 as
`LSTMCell(self._hyper_num_units)`: every optional argument keeps its
default (`use_peepholes=False`, no clipping, no projection,
`forget_bias=1.0`, activation `tanh`). -/
def hyperCellConfig (h : ℕ) : LSTMConfig :=
  { numUnits := h, usePeepholes := false, cellClip := none,
    numProj := none, projClip := none, forgetBias := 1 }

/-- Lines 800-827 of `H_LSTMCell.call`: slice the hyper part of the
incoming state (`c_t[:, num_units:]`, `m_t[:, num_units:]`), build
`x_hat = tf.concat([inputs, m_prev], 1)` with `m_prev = m_t[:, 0:num_units]`,
and run the internal hyper `LSTMCell` on it.  Returns the hyper cell's
`(h_out, (new_c, new_h))`. -/
noncomputable def H_hyperRun (cfg : HConfig) (w : HWeights) (isz : ℕ)
    (c_t m_t inputs : Mat) : Mat × Mat × Mat :=
  LSTMCell.call (hyperCellConfig cfg.hyperNumUnits) Real.tanh w.hyper
    (isz + cfg.numUnits) (concatCols inputs m_t isz)
    (fun r u => c_t r (cfg.numUnits + u)) (fun r u => m_t r (cfg.numUnits + u))

/-- Lines 829-859 of `H_LSTMCell.call`: the four gate pre-activations
`(i, j, f, o)` before the per-gate layer normalizations.  Each is the sum
of a `_hyper_norm`-scaled split of `xh = inputs @ W_xh`, a
`_hyper_norm`-scaled split of `hh` (see `H_hh`), and a
`_hyper_bias`-shifted split of the bias vector. -/
noncomputable def H_preAct (cfg : HConfig) (w : HWeights) (isz : ℕ)
    (inputs h_out : Mat) : Mat × Mat × Mat × Mat :=
  let n := cfg.numUnits
  let hw := cfg.hyperNumUnits
  let es := cfg.hyperEmbedSize
  let xh := matmul inputs w.W_xh isz
  let hh := H_hh w.W_hh isz inputs
  let ix := hyperNorm (splitCol xh 0 n) h_out hw es w.hn_ix
  let jx := hyperNorm (splitCol xh 1 n) h_out hw es w.hn_jx
  let fx := hyperNorm (splitCol xh 2 n) h_out hw es w.hn_fx
  let ox := hyperNorm (splitCol xh 3 n) h_out hw es w.hn_ox
  let ih := hyperNorm (splitCol hh 0 n) h_out hw es w.hn_ih
  let jh := hyperNorm (splitCol hh 1 n) h_out hw es w.hn_jh
  let fh := hyperNorm (splitCol hh 2 n) h_out hw es w.hn_fh
  let oh := hyperNorm (splitCol hh 3 n) h_out hw es w.hn_oh
  let ib := hyperBias (splitVec w.bias 0 n) h_out hw es w.hb_ib
  let jb := hyperBias (splitVec w.bias 1 n) h_out hw es w.hb_jb
  let fbv := hyperBias (splitVec w.bias 2 n) h_out hw es w.hb_fb
  let obv := hyperBias (splitVec w.bias 3 n) h_out hw es w.hb_ob
  (fun r u => ix r u + ih r u + ib r u,
   fun r u => jx r u + jh r u + jb r u,
   fun r u => fx r u + fh r u + fbv r u,
   fun r u => ox r u + oh r u + obv r u)

/-- Lines 874-907 of `H_LSTMCell.call`: layer-normalize the four gate
pre-activations, apply the cell update (with the same peephole form as
`LN_LSTMCell`), normalize the new cell state with `c_norm`, and compute
the pre-projection output.  Returns the main `(c, m)`. -/
noncomputable def H_mainCM (cfg : HConfig) (act : ℝ → ℝ) (w : HWeights)
    (isz : ℕ) (c_t m_t inputs : Mat) : Mat × Mat :=
  let n := cfg.numUnits
  let h_out := (H_hyperRun cfg w isz c_t m_t inputs).1
  let pre := H_preAct cfg w isz inputs h_out
  let i := layerNorm w.ln_i lnEpsilon n pre.1
  let j := layerNorm w.ln_j lnEpsilon n pre.2.1
  let f := layerNorm w.ln_f lnEpsilon n pre.2.2.1
  let o := layerNorm w.ln_o lnEpsilon n pre.2.2.2
  let c1 : Mat :=
    if cfg.usePeepholes then
      peepCellUpdate act cfg.forgetBias w.wFDiag w.wIDiag w.ln_p1 w.ln_p2 n i j f c_t
    else
      fun r u =>
        sigmoid (f r u + cfg.forgetBias) * c_t r u + sigmoid (i r u) * act (j r u)
  let c := layerNorm w.ln_c lnEpsilon n c1
  let m : Mat :=
    if cfg.usePeepholes then
      fun r u => sigmoid (o r u + w.wODiag u * c r u) * act (c r u)
    else
      fun r u => sigmoid (o r u) * act (c r u)
  (c, m)

/-- `self._state_size` as set by `H_LSTMCell.__init__` (lines 758-763),
as the pair of column counts `(c, h)` of the `LSTMStateTuple`. -/
def H_stateSize (cfg : HConfig) : ℕ × ℕ :=
  if pyTruthy cfg.numProj then
    (cfg.numUnits + cfg.hyperNumUnits, cfg.numProj.getD 0 + cfg.hyperNumUnits)
  else
    (cfg.numUnits + cfg.hyperNumUnits, cfg.numUnits + cfg.hyperNumUnits)

/-- The instance attributes assigned anywhere in class `H_LSTMCell`
(`__init__`, lines 745-781), in assignment order; the peephole-guarded
ones exist only when `use_peepholes=True`.  `_linear` is never assigned
(the `call` projection branch nevertheless reads it); `_linear2` is
assigned only inside that unreachable branch. -/
def H_initAttrNames (usePeepholes : Bool) : List String :=
  ["_num_units", "_use_peepholes", "_cell_clip", "_initializer",
   "_num_proj", "_proj_clip", "_forget_bias", "_activation",
   "_hyper_num_units", "_hyper_embed_size", "_state_size", "_output_size"] ++
  (if usePeepholes then ["_w_f_diag", "_w_i_diag", "_w_o_diag"] else []) ++
  ["_ln_i", "_ln_j", "_ln_f", "_ln_o"] ++
  (if usePeepholes then ["_ln_p1", "_ln_p2"] else []) ++
  ["_ln_c", "_hyper_cell"]

/-- One step of `H_LSTMCell.call` (lines 790-920).  The state is the pair
`(c_t, m_t)`; the first `num_units` columns are the main cell's state and
the columns from `num_units` on are the hyper cell's state.  On success
the result is `(m, (concat [c, hyper_c], concat [m, hyper_h]))`.  When
`num_proj` is not `None` the projection branch first evaluates
`self._linear`, an attribute `__init__` never assigns, so the lookup
fails with `AttributeError` before any output is produced. -/
noncomputable def H_LSTMCell.call (cfg : HConfig) (act : ℝ → ℝ)
    (w : HWeights) (isz : ℕ) (c_t m_t inputs : Mat) :
    Except String (Mat × Mat × Mat) :=
  let n := cfg.numUnits
  let hr := H_hyperRun cfg w isz c_t m_t inputs
  let cm := H_mainCM cfg act w isz c_t m_t inputs
  let c := cm.1
  let m := cm.2
  match cfg.numProj with
  | none => Except.ok (m, concatCols c hr.2.1 n, concatCols m hr.2.2 n)
  | some _ =>
    if "_linear" ∈ H_initAttrNames cfg.usePeepholes then
      let mp := matmul m w.projKernel n
      let m2 : Mat :=
        match cfg.projClip with
        | none => mp
        | some pc => fun r u => clipByValue (mp r u) (-pc) pc
      Except.ok (m2, concatCols c hr.2.1 n, concatCols m2 hr.2.2 n)
    else
      Except.error "AttributeError"

/-- Allocation semantics of `tf.get_variable`/`vs.get_variable` over a
store of fully-scoped variable names.  A fresh name is appended to the
store (the variable is created); a known name returns the existing
variable and leaves the store unchanged, which is what the scope-reuse
machinery of `base_layer.Layer.__call__` guarantees for every call after
the first. -/
def getVar (name : String) (s : List String) : List String :=
  if name ∈ s then s else s ++ [name]

/-- The lazily-created member objects of `LSTMCell`: `__init__` sets
`_linear1 = None`, `_linear2 = None` and (with peepholes) the three
diagonals to `None`; `call` replaces them on first use.  A `True` flag
means the attribute now holds a created object (which is truthy, so the
`not self._w_f_diag` guard of line 422 fails on later calls). -/
structure LSTMLazyAttrs where
  linear1 : Bool
  linear2 : Bool
  wDiag : Bool
deriving DecidableEq

/-- The attribute state right after `LSTMCell.__init__` (or
`LN_LSTMCell.__init__`, for its shared part). -/
def initLSTMAttrs : LSTMLazyAttrs := ⟨false, false, false⟩

/-- The variable-creation trace of one `LSTMCell.call`, in source order:
`_Linear([inputs, m_prev], 4*num_units, True)` under the `is None` guard
(creating `kernel` then `bias`), the peephole diagonals under
`self._use_peepholes and not self._w_f_diag`, and the projection
`_Linear(m, num_proj, False)` under `self._num_proj is not None` and the
`_linear2 is None` guard.  `scope` prefixes the variable names (the
hyper cell of `H_LSTMCell` lives under scope `hyper_lstm`).  The trace
depends on the configuration only through `use_peepholes` and through
whether `num_proj is not None` (`hasProj`), so only those two switches
are taken. -/
def LSTMCell.allocCall (scope : String) (usePeepholes hasProj : Bool)
    (a : LSTMLazyAttrs) (s : List String) : LSTMLazyAttrs × List String :=
  let (a, s) :=
    if a.linear1 then (a, s)
    else ({ a with linear1 := true },
          getVar (scope ++ "bias") (getVar (scope ++ "kernel") s))
  let (a, s) :=
    if usePeepholes && !a.wDiag then
      ({ a with wDiag := true },
       getVar (scope ++ "w_o_diag")
         (getVar (scope ++ "w_i_diag") (getVar (scope ++ "w_f_diag") s)))
    else (a, s)
  let (a, s) :=
    if hasProj then
      if a.linear2 then (a, s)
      else ({ a with linear2 := true }, getVar (scope ++ "projection/kernel") s)
    else (a, s)
  (a, s)

/-- The lazily-created member objects of `LN_LSTMCell` (lines 527-540):
the `_Linear`s, the seven `Layer_Normalization`s and the peephole
diagonals (whose guard also creates `_ln_p1`/`_ln_p2`). -/
structure LNLazyAttrs where
  linear1 : Bool
  linear2 : Bool
  lnI : Bool
  lnJ : Bool
  lnF : Bool
  lnO : Bool
  wDiag : Bool
  lnC : Bool
deriving DecidableEq

/-- The attribute state right after `LN_LSTMCell.__init__`. -/
def initLNAttrs : LNLazyAttrs := ⟨false, false, false, false, false, false, false, false⟩

/-- The variable-creation trace of one `LN_LSTMCell.call` (lines
571-631), in source order.  Each `Layer_Normalization(dim, scope)`
creates `gain` then `bias` inside its scope.  Like
`LSTMCell.allocCall`, it takes the two configuration switches the trace
depends on. -/
def LN_LSTMCell.allocCall (usePeepholes hasProj : Bool) (a : LNLazyAttrs)
    (s : List String) : LNLazyAttrs × List String :=
  let (a, s) :=
    if a.linear1 then (a, s)
    else ({ a with linear1 := true }, getVar "bias" (getVar "kernel" s))
  let (a, s) :=
    if a.lnI then (a, s)
    else ({ a with lnI := true }, getVar "i_norm/bias" (getVar "i_norm/gain" s))
  let (a, s) :=
    if a.lnJ then (a, s)
    else ({ a with lnJ := true }, getVar "j_norm/bias" (getVar "j_norm/gain" s))
  let (a, s) :=
    if a.lnF then (a, s)
    else ({ a with lnF := true }, getVar "f_norm/bias" (getVar "f_norm/gain" s))
  let (a, s) :=
    if a.lnO then (a, s)
    else ({ a with lnO := true }, getVar "o_norm/bias" (getVar "o_norm/gain" s))
  let (a, s) :=
    if usePeepholes && !a.wDiag then
      ({ a with wDiag := true },
       getVar "p2_norm/bias" (getVar "p2_norm/gain"
         (getVar "p1_norm/bias" (getVar "p1_norm/gain"
           (getVar "w_o_diag" (getVar "w_i_diag" (getVar "w_f_diag" s)))))))
    else (a, s)
  let (a, s) :=
    if a.lnC then (a, s)
    else ({ a with lnC := true }, getVar "c_norm/bias" (getVar "c_norm/gain" s))
  let (a, s) :=
    if hasProj then
      if a.linear2 then (a, s)
      else ({ a with linear2 := true }, getVar "projection/kernel" s)
    else (a, s)
  (a, s)

/-- The lazily-created member objects of `H_LSTMCell` (lines 766-781),
plus the attribute state of the embedded hyper `LSTMCell`. -/
structure HLazyAttrs where
  hyperCell : Bool
  hyperInner : LSTMLazyAttrs
  lnI : Bool
  lnJ : Bool
  lnF : Bool
  lnO : Bool
  wDiag : Bool
  lnC : Bool
deriving DecidableEq

/-- The attribute state right after `H_LSTMCell.__init__` (the inner
`LSTMCell` object does not exist yet; its attrs stand for the state it
will have once line 826 constructs it). -/
def initHAttrs : HLazyAttrs := ⟨false, initLSTMAttrs, false, false, false, false, false, false⟩

/-- The variable-creation trace of one `H_LSTMCell.call` (lines
790-920), in source order: construct the hyper `LSTMCell` once, run it
(its own lazy `_Linear`), fetch `W_xh`/`W_hh`/`W_bias` by name
(created once, then found by name and reused), the eight `_hyper_norm`
scopes (`zw` is a biased linear, `alpha` bias-free), the four
`_hyper_bias` scopes (`zb`, `beta`, both bias-free), the guarded
layer normalizations and peephole diagonals.  The projection branch
raises `AttributeError` before allocating anything, so the trace does
not depend on `num_proj` at all, only on `use_peepholes`. -/
def H_LSTMCell.allocCall (usePeepholes : Bool) (a : HLazyAttrs)
    (s : List String) : HLazyAttrs × List String :=
  let (a, s) :=
    if a.hyperCell then (a, s) else ({ a with hyperCell := true }, s)
  let (inner, s) := LSTMCell.allocCall "hyper_lstm/" false false a.hyperInner s
  let a := { a with hyperInner := inner }
  let s := getVar "W_bias" (getVar "W_hh" (getVar "W_xh" s))
  let normScope := fun (sc : String) (st : List String) =>
    getVar (sc ++ "/alpha/super_linear_w")
      (getVar (sc ++ "/zw/super_linear_b") (getVar (sc ++ "/zw/super_linear_w") st))
  let biasScope := fun (sc : String) (st : List String) =>
    getVar (sc ++ "/beta/super_linear_w") (getVar (sc ++ "/zb/super_linear_w") st)
  let s := normScope "hyper_ox" (normScope "hyper_fx" (normScope "hyper_jx" (normScope "hyper_ix" s)))
  let s := normScope "hyper_oh" (normScope "hyper_fh" (normScope "hyper_jh" (normScope "hyper_ih" s)))
  let s := biasScope "hyper_ob" (biasScope "hyper_fb" (biasScope "hyper_jb" (biasScope "hyper_ib" s)))
  let (a, s) :=
    if a.lnI then (a, s)
    else ({ a with lnI := true }, getVar "i_norm/bias" (getVar "i_norm/gain" s))
  let (a, s) :=
    if a.lnJ then (a, s)
    else ({ a with lnJ := true }, getVar "j_norm/bias" (getVar "j_norm/gain" s))
  let (a, s) :=
    if a.lnF then (a, s)
    else ({ a with lnF := true }, getVar "f_norm/bias" (getVar "f_norm/gain" s))
  let (a, s) :=
    if a.lnO then (a, s)
    else ({ a with lnO := true }, getVar "o_norm/bias" (getVar "o_norm/gain" s))
  let (a, s) :=
    if usePeepholes && !a.wDiag then
      ({ a with wDiag := true },
       getVar "p2_norm/bias" (getVar "p2_norm/gain"
         (getVar "p1_norm/bias" (getVar "p1_norm/gain"
           (getVar "w_o_diag" (getVar "w_i_diag" (getVar "w_f_diag" s)))))))
    else (a, s)
  let (a, s) :=
    if a.lnC then (a, s)
    else ({ a with lnC := true }, getVar "c_norm/bias" (getVar "c_norm/gain" s))
  (a, s)

/-- Every name bound at module level in `h_cell.py`: the `__future__`
features, the imported modules (bound under their last component or
`as`-alias), the two string constants, and the module-level functions and
classes.  `np` (numpy) is not among them — the module never imports
numpy. -/
def moduleBoundNames : List String :=
  ["absolute_import", "division", "print_function",
   "collections", "hashlib", "numbers",
   "context", "constant_op", "dtypes", "ops", "tensor_shape", "tensor_util",
   "base_layer", "array_ops", "clip_ops", "init_ops", "math_ops", "nn_ops",
   "partitioned_variables", "random_ops", "tensor_array_ops", "vs",
   "tf_variables", "logging", "nest", "tf",
   "_BIAS_VARIABLE_NAME", "_WEIGHTS_VARIABLE_NAME",
   "_like_rnncell", "_concat", "_zero_state_tensors",
   "RNNCell", "_LSTMStateTuple", "LSTMStateTuple",
   "LSTMCell", "LN_LSTMCell", "Layer_Normalization",
   "orthogonal", "lstm_ortho_initializer",
   "_h_linear", "_hyper_norm", "_hyper_bias",
   "H_LSTMCell", "_Linear"]

/-- A Python numeric scalar: an int or a float.  The `scale` parameter
of `lstm_ortho_initializer` (default `1.0`) is a float. -/
inductive PyNum where
  | int (k : Int)
  | float (x : ℝ)

/-- Python `list * num` on a list of dimensions: an int multiplier
repeats the list (non-positive gives the empty list); a float multiplier
raises `TypeError: can't multiply sequence by non-int`.  Line 665 passes
`[size_x, size_h] * scale` with `scale` a float. -/
def pyListMulNum (l : List ℕ) : PyNum → Except String (List ℕ)
  | PyNum.int k => Except.ok (List.flatten (List.replicate k.toNat l))
  | PyNum.float _ => Except.error "TypeError"

/-- The body of the closure `_initializer` returned by
`lstm_ortho_initializer` (lines 658-666), modelled up to its first
failure: `size_x = shape[0]` and `size_h = shape[1]/4` index the shape
(an out-of-range index is an `IndexError`), then `t = np.zeros(shape)`
resolves the free name `np` against the module's bound names and fails
with `NameError` because `h_cell.py` never imports numpy.  The remainder
of the body (the four `orthogonal` blocks, themselves full of `np`
references) is unreachable, so the `ok` continuation below is never
produced for any argument. -/
def lstm_ortho_initializer_apply (_scale : ℝ) (shape : List ℕ) :
    Except String Unit :=
  match shape.get? 0 with
  | none => Except.error "IndexError"
  | some _ =>
    match shape.get? 1 with
    | none => Except.error "IndexError"
    | some _ =>
      if "np" ∈ moduleBoundNames then Except.ok () else Except.error "NameError"

/-- The everywhere-zero tensor. -/
def zeroMat : Mat := fun _ _ => 0

/-- The everywhere-one tensor. -/
def oneMat : Mat := fun _ _ => 1

/-- The everywhere-two tensor. -/
def twoMat : Mat := fun _ _ => 2

/-- All-zero `LSTMCell` weights, for concrete evaluations. -/
def wZero : LSTMWeights :=
  { kernel := zeroMat, bias := fun _ => 0, wFDiag := fun _ => 0,
    wIDiag := fun _ => 0, wODiag := fun _ => 0, projKernel := zeroMat }

/-- Identity-initialized normalization parameters (`gain` ones, `bias`
zeros), the initial values of `Layer_Normalization`. -/
def lnId : LNParams := { gain := fun _ => 1, bias := fun _ => 0 }

/-- The sigmoid is strictly positive. -/
theorem sigmoid_pos (x : ℝ) : 0 < sigmoid x := by
  unfold sigmoid
  positivity

/-- `tanh` is strictly positive on positive arguments. -/
theorem tanh_pos_of_pos {x : ℝ} (hx : 0 < x) : 0 < Real.tanh x := by
  rw [Real.tanh_eq_sinh_div_cosh]
  exact div_pos (Real.sinh_pos_iff.mpr hx) (Real.cosh_pos x)

/-- The row variance is nonnegative. -/
theorem rowVar_nonneg (x : Mat) (n r : ℕ) : 0 ≤ rowVar x n r := by
  unfold rowVar
  exact div_nonneg (Finset.sum_nonneg fun k _ => sq_nonneg _) (Nat.cast_nonneg n)

/-- The deviations from the row mean sum to zero. -/
theorem sum_sub_rowMean (x : Mat) (n r : ℕ) :
    ∑ k in Finset.range n, (x r k - rowMean x n r) = 0 := by
  rcases Nat.eq_zero_or_pos n with hn | hn
  · subst hn; simp
  · rw [Finset.sum_sub_distrib, Finset.sum_const, Finset.card_range, rowMean]
    have hne : (n : ℝ) ≠ 0 := Nat.cast_ne_zero.mpr hn.ne'
    field_simp

/-- The mean-and-scale part of `Layer_Normalization` produces rows of
mean exactly zero. -/
theorem normalized_rowMean (x : Mat) (eps : ℝ) (n r : ℕ) :
    rowMean (fun r u => (x r u - rowMean x n r) / Real.sqrt (rowVar x n r + eps)) n r = 0 := by
  unfold rowMean
  rw [← Finset.sum_div]
  have h := sum_sub_rowMean x n r
  rw [rowMean] at h
  rw [h, zero_div, zero_div]

/-- The mean-and-scale part of `Layer_Normalization` produces rows of
variance `v / (v + eps)` where `v` is the original row variance: unit
variance up to the `eps` inside the square root. -/
theorem normalized_rowVar (x : Mat) (eps : ℝ) (heps : 0 < eps) (n r : ℕ) :
    rowVar (fun r u => (x r u - rowMean x n r) / Real.sqrt (rowVar x n r + eps)) n r =
      rowVar x n r / (rowVar x n r + eps) := by
  have hv := rowVar_nonneg x n r
  have hse : Real.sqrt (rowVar x n r + eps) ^ 2 = rowVar x n r + eps :=
    Real.sq_sqrt (by linarith)
  have hm := normalized_rowMean x eps n r
  rw [rowVar, hm]
  simp only [sub_zero, div_pow, hse]
  rw [← Finset.sum_div, div_div, mul_comm, ← div_div, rowVar]

/-- `matmul` into an all-zero right factor is zero. -/
theorem matmul_zero_right (a : Mat) (inner : ℕ) : matmul a zeroMat inner = zeroMat := by
  funext r k
  unfold matmul zeroMat
  simp

/-- C1 (amended): for every call of `LSTMCell.call` with
`use_peepholes=False`, `cell_clip=None` and `num_proj=None`, the new cell
state is `sigmoid(f + forget_bias) * c_prev + sigmoid(i) * activation(j)`
and the output is `sigmoid(o) * activation(c)`, where `i, j, f, o` are
the four equal column-splits of the linear map of `[inputs, m_prev]` and
the constructor's activation defaults to `tanh`. -/
theorem lstm_no_peephole_step (cfg : LSTMConfig) (act : ℝ → ℝ)
    (w : LSTMWeights) (isz : ℕ) (inputs c_prev m_prev : Mat)
    (hpe : cfg.usePeepholes = false) (hcc : cfg.cellClip = none)
    (hnp : cfg.numProj = none) :
    (LSTMCell.call cfg act w isz inputs c_prev m_prev).2.1 =
      (fun r u =>
        sigmoid (splitCol (lstmMatrix w.kernel w.bias isz cfg.numUnits inputs m_prev) 2 cfg.numUnits r u
            + cfg.forgetBias) * c_prev r u +
          sigmoid (splitCol (lstmMatrix w.kernel w.bias isz cfg.numUnits inputs m_prev) 0 cfg.numUnits r u) *
            act (splitCol (lstmMatrix w.kernel w.bias isz cfg.numUnits inputs m_prev) 1 cfg.numUnits r u)) ∧
    (LSTMCell.call cfg act w isz inputs c_prev m_prev).1 =
      (fun r u =>
        sigmoid (splitCol (lstmMatrix w.kernel w.bias isz cfg.numUnits inputs m_prev) 3 cfg.numUnits r u) *
          act ((LSTMCell.call cfg act w isz inputs c_prev m_prev).2.1 r u)) ∧
    lstmActivation none = Real.tanh := by
  obtain ⟨n, pe, cc, np, pc, fb⟩ := cfg
  dsimp only at hpe hcc hnp
  subst hpe
  subst hcc
  subst hnp
  exact ⟨rfl, rfl, rfl⟩

/-- Witness for C1 (amended) at a concrete default-configured cell. -/
theorem lstm_no_peephole_step_witness :
    let cfg : LSTMConfig := ⟨1, false, none, none, none, 1⟩
    cfg.usePeepholes = false ∧ cfg.cellClip = none ∧ cfg.numProj = none ∧
    ((LSTMCell.call cfg Real.tanh wZero 1 zeroMat zeroMat zeroMat).2.1 =
      (fun r u =>
        sigmoid (splitCol (lstmMatrix wZero.kernel wZero.bias 1 cfg.numUnits zeroMat zeroMat) 2 cfg.numUnits r u
            + cfg.forgetBias) * zeroMat r u +
          sigmoid (splitCol (lstmMatrix wZero.kernel wZero.bias 1 cfg.numUnits zeroMat zeroMat) 0 cfg.numUnits r u) *
            Real.tanh (splitCol (lstmMatrix wZero.kernel wZero.bias 1 cfg.numUnits zeroMat zeroMat) 1 cfg.numUnits r u)) ∧
    (LSTMCell.call cfg Real.tanh wZero 1 zeroMat zeroMat zeroMat).1 =
      (fun r u =>
        sigmoid (splitCol (lstmMatrix wZero.kernel wZero.bias 1 cfg.numUnits zeroMat zeroMat) 3 cfg.numUnits r u) *
          Real.tanh ((LSTMCell.call cfg Real.tanh wZero 1 zeroMat zeroMat zeroMat).2.1 r u)) ∧
    lstmActivation none = Real.tanh) :=
  ⟨rfl, rfl, rfl,
    lstm_no_peephole_step ⟨1, false, none, none, none, 1⟩ Real.tanh wZero 1
      zeroMat zeroMat zeroMat rfl rfl rfl⟩

/-- An `LSTMCell` configuration with `cell_clip=0.0`. -/
def cfgClip : LSTMConfig := ⟨1, false, some 0, none, none, 1⟩

/-- An `LSTMCell` configuration with `num_proj=1`. -/
def cfgProj : LSTMConfig := ⟨1, false, none, some 1, none, 1⟩

/-- C1 (counterexample to the claim as stated): with `use_peepholes=False`
but `cell_clip=0.0`, the new cell state is the clipped value `0`, not
`sigmoid(f + forget_bias) * c_prev + sigmoid(i) * tanh(j) = sigmoid(1)`;
and with `num_proj=1` (zero projection kernel) the output is the
projection `0`, not `sigmoid(o) * tanh(c)`. -/
theorem lstm_no_peephole_claim_counterexample :
    (LSTMCell.call cfgClip Real.tanh wZero 1 zeroMat oneMat zeroMat).2.1 0 0 ≠
      sigmoid (0 + 1) * 1 + sigmoid 0 * Real.tanh 0 ∧
    (LSTMCell.call cfgProj Real.tanh wZero 1 zeroMat oneMat zeroMat).1 0 0 ≠
      sigmoid 0 *
        Real.tanh ((LSTMCell.call cfgProj Real.tanh wZero 1 zeroMat oneMat zeroMat).2.1 0 0) := by
  have hs1 : (0 : ℝ) < sigmoid 1 := sigmoid_pos 1
  constructor
  · have hL : (LSTMCell.call cfgClip Real.tanh wZero 1 zeroMat oneMat zeroMat).2.1 0 0 = 0 := by
      simp only [LSTMCell.call, LSTMCell.coreStep, cfgClip, wZero, lstmMatrix, splitCol,
        concatCols, matmul, zeroMat, oneMat, clipByValue]
      norm_num [Real.tanh_zero]
    rw [hL]
    have : sigmoid (0 + 1) * 1 + sigmoid 0 * Real.tanh 0 = sigmoid 1 := by
      norm_num [Real.tanh_zero]
    rw [this]
    exact hs1.ne
  · have hc : (LSTMCell.call cfgProj Real.tanh wZero 1 zeroMat oneMat zeroMat).2.1 0 0 = sigmoid 1 := by
      simp only [LSTMCell.call, LSTMCell.coreStep, cfgProj, wZero, lstmMatrix, splitCol,
        concatCols, matmul, zeroMat, oneMat]
      norm_num [Real.tanh_zero]
    have hm : (LSTMCell.call cfgProj Real.tanh wZero 1 zeroMat oneMat zeroMat).1 0 0 = 0 := by
      simp only [LSTMCell.call, LSTMCell.coreStep, cfgProj, wZero, lstmMatrix, splitCol,
        concatCols, matmul, zeroMat, oneMat]
      norm_num
    rw [hm, hc]
    have hpos : 0 < sigmoid 0 * Real.tanh (sigmoid 1) :=
      mul_pos (sigmoid_pos 0) (tanh_pos_of_pos hs1)
    exact hpos.ne

set_option maxRecDepth 8000 in
set_option maxHeartbeats 1600000 in
/-- C2: for every cell variant (`LSTMCell`, `LN_LSTMCell`, `H_LSTMCell`)
and every combination of the `use_peepholes` / `num_proj` switches, the
first invocation starting from the freshly-initialized attribute state
and an empty variable store allocates the weight variables, and a second
invocation is the identity on both the attribute state and the store: it
reuses every already-created weight object and allocates no new weight
variable.  (For `H_LSTMCell` with `num_proj` set, both invocations stop
in `AttributeError` after the same allocations; the projection weight is
never reached, so its trace does not take a projection switch.) -/
theorem weights_allocated_once (pe hp : Bool) :
    (let r1 := LSTMCell.allocCall "" pe hp initLSTMAttrs []
     LSTMCell.allocCall "" pe hp r1.1 r1.2 = r1 ∧ r1.2 ≠ []) ∧
    (let r1 := LN_LSTMCell.allocCall pe hp initLNAttrs []
     LN_LSTMCell.allocCall pe hp r1.1 r1.2 = r1 ∧ r1.2 ≠ []) ∧
    (let r1 := H_LSTMCell.allocCall pe initHAttrs []
     H_LSTMCell.allocCall pe r1.1 r1.2 = r1 ∧ r1.2 ≠ []) := by
  cases pe <;> cases hp <;>
    exact ⟨⟨by decide, by decide⟩, ⟨by decide, by decide⟩, ⟨by decide, by decide⟩⟩

/-- C3 (evaluation at the failing input): the peephole cell update used
by `LN_LSTMCell.call` (line 610) and `H_LSTMCell.call` (line 898) does
not multiply the forget-gate sigmoid by `c_prev`.  With `num_units=1`,
gates `i=j=f=0`, `forget_bias=1`, zero peephole diagonals,
identity-initialized normalizations and `c_prev=2`, the code produces
`sigmoid(1)` whereas the LSTM form
`sigmoid(f + forget_bias + w_f_diag*c_prev) * c_prev
 + sigmoid(i + w_i_diag*c_prev) * tanh(j)` claimed for every variant
requires `2 * sigmoid(1)`. -/
theorem peephole_update_misses_cprev :
    peepCellUpdate Real.tanh 1 (fun _ => 0) (fun _ => 0) lnId lnId 1
        zeroMat zeroMat zeroMat twoMat 0 0 ≠
      sigmoid (0 + 1 + 0 * 2) * 2 + sigmoid (0 + 0 * 2) * Real.tanh 0 := by
  have hL : peepCellUpdate Real.tanh 1 (fun _ => 0) (fun _ => 0) lnId lnId 1
      zeroMat zeroMat zeroMat twoMat 0 0 = sigmoid 1 := by
    simp [peepCellUpdate, layerNorm, rowMean, rowVar, zeroMat, twoMat, lnId,
      Real.tanh_zero]
  rw [hL]
  have hR : sigmoid (0 + 1 + 0 * 2) * 2 + sigmoid (0 + 0 * 2) * Real.tanh 0 =
      sigmoid 1 * 2 := by
    norm_num [Real.tanh_zero]
  rw [hR]
  have hs := sigmoid_pos 1
  intro h
  nlinarith

/-- C5 (evaluation at the failing input): the hidden-to-hidden
contribution `hh` computed at line 834 of `H_LSTMCell.call` is
`inputs @ W_hh`, not `m_prev @ W_hh`: with `inputs = 2`,
`m_prev = 0`, `W_hh = 1` and `input_size = 1` the code produces `2`
while the claimed recurrence term is `0`. -/
theorem h_hh_ignores_m_prev :
    H_hh oneMat 1 twoMat 0 0 ≠ matmul zeroMat oneMat 1 0 0 := by
  simp [H_hh, matmul, zeroMat, oneMat, twoMat]

/-- C4: in `H_LSTMCell.call` the gate pre-activations are generated with
a smaller auxiliary LSTM: the internal `LSTMCell(hyper_num_units)` (all
other arguments at their defaults) is run on the concatenation of
`inputs` and `m_prev` against the hyper slice of the state, and its
output `h_out` is what `_hyper_norm` uses to scale each of the eight
gate terms `ix, jx, fx, ox, ih, jh, fh, oh` and what `_hyper_bias` uses
to shift each of the four bias terms `ib, jb, fb, ob`; the four
pre-activations are the sums `ix+ih+ib`, `jx+jh+jb`, `fx+fh+fb`,
`ox+oh+ob`. -/
theorem h_gates_generated_by_hyper_lstm (cfg : HConfig) (w : HWeights)
    (isz : ℕ) (c_t m_t inputs : Mat) :
    H_hyperRun cfg w isz c_t m_t inputs =
      LSTMCell.call (hyperCellConfig cfg.hyperNumUnits) Real.tanh w.hyper
        (isz + cfg.numUnits) (concatCols inputs m_t isz)
        (fun r u => c_t r (cfg.numUnits + u))
        (fun r u => m_t r (cfg.numUnits + u)) ∧
    H_preAct cfg w isz inputs (H_hyperRun cfg w isz c_t m_t inputs).1 =
      (fun r u =>
        hyperNorm (splitCol (matmul inputs w.W_xh isz) 0 cfg.numUnits)
            (H_hyperRun cfg w isz c_t m_t inputs).1
            cfg.hyperNumUnits cfg.hyperEmbedSize w.hn_ix r u +
          hyperNorm (splitCol (H_hh w.W_hh isz inputs) 0 cfg.numUnits)
            (H_hyperRun cfg w isz c_t m_t inputs).1
            cfg.hyperNumUnits cfg.hyperEmbedSize w.hn_ih r u +
          hyperBias (splitVec w.bias 0 cfg.numUnits)
            (H_hyperRun cfg w isz c_t m_t inputs).1
            cfg.hyperNumUnits cfg.hyperEmbedSize w.hb_ib r u,
       fun r u =>
        hyperNorm (splitCol (matmul inputs w.W_xh isz) 1 cfg.numUnits)
            (H_hyperRun cfg w isz c_t m_t inputs).1
            cfg.hyperNumUnits cfg.hyperEmbedSize w.hn_jx r u +
          hyperNorm (splitCol (H_hh w.W_hh isz inputs) 1 cfg.numUnits)
            (H_hyperRun cfg w isz c_t m_t inputs).1
            cfg.hyperNumUnits cfg.hyperEmbedSize w.hn_jh r u +
          hyperBias (splitVec w.bias 1 cfg.numUnits)
            (H_hyperRun cfg w isz c_t m_t inputs).1
            cfg.hyperNumUnits cfg.hyperEmbedSize w.hb_jb r u,
       fun r u =>
        hyperNorm (splitCol (matmul inputs w.W_xh isz) 2 cfg.numUnits)
            (H_hyperRun cfg w isz c_t m_t inputs).1
            cfg.hyperNumUnits cfg.hyperEmbedSize w.hn_fx r u +
          hyperNorm (splitCol (H_hh w.W_hh isz inputs) 2 cfg.numUnits)
            (H_hyperRun cfg w isz c_t m_t inputs).1
            cfg.hyperNumUnits cfg.hyperEmbedSize w.hn_fh r u +
          hyperBias (splitVec w.bias 2 cfg.numUnits)
            (H_hyperRun cfg w isz c_t m_t inputs).1
            cfg.hyperNumUnits cfg.hyperEmbedSize w.hb_fb r u,
       fun r u =>
        hyperNorm (splitCol (matmul inputs w.W_xh isz) 3 cfg.numUnits)
            (H_hyperRun cfg w isz c_t m_t inputs).1
            cfg.hyperNumUnits cfg.hyperEmbedSize w.hn_ox r u +
          hyperNorm (splitCol (H_hh w.W_hh isz inputs) 3 cfg.numUnits)
            (H_hyperRun cfg w isz c_t m_t inputs).1
            cfg.hyperNumUnits cfg.hyperEmbedSize w.hn_oh r u +
          hyperBias (splitVec w.bias 3 cfg.numUnits)
            (H_hyperRun cfg w isz c_t m_t inputs).1
            cfg.hyperNumUnits cfg.hyperEmbedSize w.hb_ob r u) :=
  ⟨rfl, rfl⟩

/-- C6: in every call of `LN_LSTMCell.call` each of the four gate
pre-activations `i, j, f, o` is transformed by its own per-gate layer
normalization before the gate nonlinearities are applied — the whole
rest of the step factors through the four values
`layerNorm ln_g lnEpsilon num_units g` for the raw splits `g` of the
linear map (together with `c_prev`); moreover the normalizer shifts each
row to mean exactly zero and, with the epsilon `1e-5` inside the square
root, scales it to variance `v / (v + 1e-5)` (unit variance up to the
epsilon), before the learned gain and bias are applied. -/
theorem ln_per_gate_normalization (cfg : LSTMConfig) (act : ℝ → ℝ)
    (w : LNLSTMWeights) :
    (∃ G : Mat → Mat → Mat → Mat → Mat → Mat × Mat × Mat,
      ∀ (isz : ℕ) (inputs c_prev m_prev : Mat),
        LN_LSTMCell.call cfg act w isz inputs c_prev m_prev =
          G (layerNorm w.ln_i lnEpsilon cfg.numUnits
               (splitCol (lstmMatrix w.kernel w.bias isz (cfg.numProj.getD cfg.numUnits) inputs m_prev) 0 cfg.numUnits))
            (layerNorm w.ln_j lnEpsilon cfg.numUnits
               (splitCol (lstmMatrix w.kernel w.bias isz (cfg.numProj.getD cfg.numUnits) inputs m_prev) 1 cfg.numUnits))
            (layerNorm w.ln_f lnEpsilon cfg.numUnits
               (splitCol (lstmMatrix w.kernel w.bias isz (cfg.numProj.getD cfg.numUnits) inputs m_prev) 2 cfg.numUnits))
            (layerNorm w.ln_o lnEpsilon cfg.numUnits
               (splitCol (lstmMatrix w.kernel w.bias isz (cfg.numProj.getD cfg.numUnits) inputs m_prev) 3 cfg.numUnits))
            c_prev) ∧
    (∀ (x : Mat) (n r : ℕ),
      rowMean (fun r u => (x r u - rowMean x n r) / Real.sqrt (rowVar x n r + lnEpsilon)) n r = 0) ∧
    (∀ (x : Mat) (n r : ℕ),
      rowVar (fun r u => (x r u - rowMean x n r) / Real.sqrt (rowVar x n r + lnEpsilon)) n r =
        rowVar x n r / (rowVar x n r + lnEpsilon)) := by
  refine ⟨⟨?_, ?_⟩, ?_, ?_⟩
  · exact fun gi gj gf go cp =>
      let n := cfg.numUnits
      let c1 : Mat :=
        if cfg.usePeepholes then
          peepCellUpdate act cfg.forgetBias w.wFDiag w.wIDiag w.ln_p1 w.ln_p2 n gi gj gf cp
        else
          fun r u => sigmoid (gf r u + cfg.forgetBias) * cp r u + sigmoid (gi r u) * act (gj r u)
      let c := layerNorm w.ln_c lnEpsilon n c1
      let m1 : Mat :=
        if cfg.usePeepholes then
          fun r u => sigmoid (go r u + w.wODiag u * c r u) * act (c r u)
        else
          fun r u => sigmoid (go r u) * act (c r u)
      let m : Mat :=
        match cfg.numProj with
        | none => m1
        | some _ =>
          let mp := matmul m1 w.projKernel n
          match cfg.projClip with
          | none => mp
          | some pc => fun r u => clipByValue (mp r u) (-pc) pc
      (m, c, m)
  · exact fun isz inputs c_prev m_prev => rfl
  · exact fun x n r => normalized_rowMean x lnEpsilon n r
  · exact fun x n r => normalized_rowVar x lnEpsilon (by norm_num [lnEpsilon]) n r

/-- C7 (counterexample to the claim as stated): `num_proj=0` is "set"
but falsy in Python, so `LSTMCell.__init__` (line 344, `if num_proj:`)
gives `output_size = num_units = 1`, not `num_proj = 0`. -/
theorem lstm_output_size_claim_counterexample :
    ¬ LSTMCell.outputSize 1 (some 0) = 0 := by
  decide

/-- C7 (amended): for `LSTMCell`, if `num_proj` is set to a nonzero
value then `output_size` equals `num_proj`, the returned output is the
bias-free linear projection of `m`, and if `proj_clip` is also provided
the projected values are clipped elementwise to
`[-proj_clip, proj_clip]`; if `num_proj` is `None`, no projection is
performed and `output_size` equals `num_units`. -/
theorem lstm_projection_behavior (n p : ℕ) (hp : p ≠ 0) (cfg : LSTMConfig)
    (act : ℝ → ℝ) (w : LSTMWeights) (isz : ℕ) (inputs c_prev m_prev : Mat) :
    LSTMCell.outputSize n (some p) = p ∧
    LSTMCell.outputSize n none = n ∧
    (cfg.numProj = some p →
      (LSTMCell.call cfg act w isz inputs c_prev m_prev).1 =
        (match cfg.projClip with
         | none =>
           matmul (LSTMCell.coreStep cfg act w isz inputs c_prev m_prev).2
             w.projKernel cfg.numUnits
         | some pc => fun r u =>
           clipByValue
             (matmul (LSTMCell.coreStep cfg act w isz inputs c_prev m_prev).2
               w.projKernel cfg.numUnits r u) (-pc) pc)) ∧
    (cfg.numProj = none →
      (LSTMCell.call cfg act w isz inputs c_prev m_prev).1 =
        (LSTMCell.coreStep cfg act w isz inputs c_prev m_prev).2) := by
  obtain ⟨nu, pe, cc, np, pc, fb⟩ := cfg
  refine ⟨?_, ?_, ?_, ?_⟩
  · simp [LSTMCell.outputSize, pyTruthy, hp]
  · rfl
  · intro h
    dsimp only at h
    subst h
    rfl
  · intro h
    dsimp only at h
    subst h
    rfl

/-- Witness for C7 (amended) at `num_units=1`, `num_proj=1`. -/
theorem lstm_projection_behavior_witness :
    (1 : ℕ) ≠ 0 ∧
    (LSTMCell.outputSize 1 (some 1) = 1 ∧
     LSTMCell.outputSize 1 none = 1 ∧
     (cfgProj.numProj = some 1 →
       (LSTMCell.call cfgProj Real.tanh wZero 1 zeroMat zeroMat zeroMat).1 =
         (match cfgProj.projClip with
          | none =>
            matmul (LSTMCell.coreStep cfgProj Real.tanh wZero 1 zeroMat zeroMat zeroMat).2
              wZero.projKernel cfgProj.numUnits
          | some pc => fun r u =>
            clipByValue
              (matmul (LSTMCell.coreStep cfgProj Real.tanh wZero 1 zeroMat zeroMat zeroMat).2
                wZero.projKernel cfgProj.numUnits r u) (-pc) pc)) ∧
     (cfgProj.numProj = none →
       (LSTMCell.call cfgProj Real.tanh wZero 1 zeroMat zeroMat zeroMat).1 =
         (LSTMCell.coreStep cfgProj Real.tanh wZero 1 zeroMat zeroMat zeroMat).2)) :=
  ⟨by decide,
   lstm_projection_behavior 1 1 (by decide) cfgProj Real.tanh wZero 1
     zeroMat zeroMat zeroMat⟩

/-- All-zero `_hyper_norm` weights. -/
def hnZero : HyperNormWeights := ⟨zeroMat, fun _ => 0, zeroMat⟩

/-- All-zero `_hyper_bias` weights. -/
def hbZero : HyperBiasWeights := ⟨zeroMat, zeroMat⟩

/-- Concrete `H_LSTMCell` weights: zero kernels, identity-initialized
normalizations. -/
def hwZeroAll : HWeights :=
  { hyper := wZero, W_xh := zeroMat, W_hh := zeroMat, bias := fun _ => 0,
    hn_ix := hnZero, hn_jx := hnZero, hn_fx := hnZero, hn_ox := hnZero,
    hn_ih := hnZero, hn_jh := hnZero, hn_fh := hnZero, hn_oh := hnZero,
    hb_ib := hbZero, hb_jb := hbZero, hb_fb := hbZero, hb_ob := hbZero,
    ln_i := lnId, ln_j := lnId, ln_f := lnId, ln_o := lnId,
    ln_p1 := lnId, ln_p2 := lnId, ln_c := lnId,
    wFDiag := fun _ => 0, wIDiag := fun _ => 0, wODiag := fun _ => 0,
    projKernel := zeroMat }

/-- An `H_LSTMCell` configuration with `num_proj=None`. -/
def cfgH : HConfig := ⟨1, false, none, none, none, 1, 1, 1⟩

/-- An `H_LSTMCell` configuration with `num_proj=1`. -/
def cfgHProj : HConfig := ⟨1, false, none, some 1, none, 1, 1, 1⟩

/-- C8: `H_LSTMCell` keeps its state-shape bookkeeping invariant:
`state_size` is `LSTMStateTuple(num_units + hyper_num_units,
(num_proj or num_units) + hyper_num_units)` for every `num_proj`; and
every (returning) call splits the incoming state columns so that the
first `num_units` columns belong to the main cell and the remaining
columns to the hyper cell, and concatenates the new main and hyper
states back in the same column layout: reading the first `num_units`
columns of the returned state gives the main `(c, m)` and reading the
columns from `num_units` on gives the hyper cell's new state, so the
state shape is preserved by every step. -/
theorem h_state_layout (cfg : HConfig) (act : ℝ → ℝ) (w : HWeights)
    (isz : ℕ) (c_t m_t inputs : Mat) (hnp : cfg.numProj = none) :
    (∀ np : Option ℕ,
      H_stateSize { cfg with numProj := np } =
        (cfg.numUnits + cfg.hyperNumUnits,
         pyOrNat np cfg.numUnits + cfg.hyperNumUnits)) ∧
    ∃ out C M,
      H_LSTMCell.call cfg act w isz c_t m_t inputs = Except.ok (out, C, M) ∧
      (∀ r u, u < cfg.numUnits →
        C r u = (H_mainCM cfg act w isz c_t m_t inputs).1 r u ∧
        M r u = (H_mainCM cfg act w isz c_t m_t inputs).2 r u) ∧
      (∀ r u,
        C r (cfg.numUnits + u) = (H_hyperRun cfg w isz c_t m_t inputs).2.1 r u ∧
        M r (cfg.numUnits + u) = (H_hyperRun cfg w isz c_t m_t inputs).2.2 r u) := by
  constructor
  · intro np
    rcases np with _ | p
    · simp [H_stateSize, pyOrNat, pyTruthy]
    · by_cases hz : p = 0 <;> simp [H_stateSize, pyOrNat, pyTruthy, hz]
  · obtain ⟨nu, pe, cc, np, pcl, fb, hnu, hes⟩ := cfg
    dsimp only at hnp ⊢
    subst hnp
    refine ⟨_, _, _, rfl, ?_, ?_⟩
    · intro r u h
      constructor <;> simp [concatCols, h]
    · intro r u
      have hlt : ¬ (nu + u < nu) := by omega
      constructor <;> simp [concatCols, hlt, Nat.add_sub_cancel_left]

/-- Witness for C8 at a concrete `H_LSTMCell` with `num_units=1`,
`hyper_num_units=1` and zero weights. -/
theorem h_state_layout_witness :
    cfgH.numProj = none ∧
    ((∀ np : Option ℕ,
      H_stateSize { cfgH with numProj := np } =
        (cfgH.numUnits + cfgH.hyperNumUnits,
         pyOrNat np cfgH.numUnits + cfgH.hyperNumUnits)) ∧
    ∃ out C M,
      H_LSTMCell.call cfgH Real.tanh hwZeroAll 1 zeroMat zeroMat zeroMat = Except.ok (out, C, M) ∧
      (∀ r u, u < cfgH.numUnits →
        C r u = (H_mainCM cfgH Real.tanh hwZeroAll 1 zeroMat zeroMat zeroMat).1 r u ∧
        M r u = (H_mainCM cfgH Real.tanh hwZeroAll 1 zeroMat zeroMat zeroMat).2 r u) ∧
      (∀ r u,
        C r (cfgH.numUnits + u) = (H_hyperRun cfgH hwZeroAll 1 zeroMat zeroMat zeroMat).2.1 r u ∧
        M r (cfgH.numUnits + u) = (H_hyperRun cfgH hwZeroAll 1 zeroMat zeroMat zeroMat).2.2 r u)) :=
  ⟨rfl, h_state_layout cfgH Real.tanh hwZeroAll 1 zeroMat zeroMat zeroMat rfl⟩

/-- C9: for every call of `H_LSTMCell.call` on a cell constructed with
`num_proj` set to a positive integer, the call fails with
`AttributeError` before producing an output, because the projection
branch (line 910) reads `self._linear`, an attribute that is never
assigned anywhere in the class. -/
theorem h_projection_attribute_error (cfg : HConfig) (act : ℝ → ℝ)
    (w : HWeights) (isz : ℕ) (c_t m_t inputs : Mat) (p : ℕ)
    (hp : cfg.numProj = some p) (hpos : 0 < p) :
    H_LSTMCell.call cfg act w isz c_t m_t inputs = Except.error "AttributeError" ∧
    "_linear" ∉ H_initAttrNames cfg.usePeepholes := by
  obtain ⟨nu, pe, cc, np, pcl, fb, hnu, hes⟩ := cfg
  dsimp only at hp ⊢
  subst hp
  cases pe <;> exact ⟨rfl, by decide⟩

/-- Witness for C9 at `num_proj=1`. -/
theorem h_projection_attribute_error_witness :
    cfgHProj.numProj = some 1 ∧ 0 < 1 ∧
    (H_LSTMCell.call cfgHProj Real.tanh hwZeroAll 1 zeroMat zeroMat zeroMat =
        Except.error "AttributeError" ∧
     "_linear" ∉ H_initAttrNames cfgHProj.usePeepholes) :=
  ⟨rfl, by decide,
   h_projection_attribute_error cfgHProj Real.tanh hwZeroAll 1 zeroMat zeroMat
     zeroMat 1 rfl (by decide)⟩

/-- C10 (counterexample to the claim as stated): on the one-dimensional
shape `[5]` the initializer body fails at `size_h = shape[1]/4` with
`IndexError`, before it ever reaches the unresolved name `np`, so this
invocation does not raise `NameError`. -/
theorem ortho_initializer_claim_counterexample :
    lstm_ortho_initializer_apply 1 [5] ≠ Except.error "NameError" := by
  intro h
  simp [lstm_ortho_initializer_apply] at h

/-- C10 (amended): for every shape with at least two dimensions,
invoking the initializer returned by `lstm_ortho_initializer` raises
`NameError`, because the body references `np` (numpy) — first at
`t = np.zeros(shape)` and then throughout `orthogonal` — and `np` is
never bound at module level; additionally its fourth block passes the
list `[size_x, size_h]` multiplied by the float `scale`, and a Python
list multiplied by a float is a `TypeError`, which cannot construct a
valid shape. -/
theorem ortho_initializer_name_error (scale : ℝ) (shape : List ℕ)
    (h : 2 ≤ shape.length) :
    lstm_ortho_initializer_apply scale shape = Except.error "NameError" ∧
    "np" ∉ moduleBoundNames ∧
    (∀ (sx sh : ℕ) (c : ℝ),
      pyListMulNum [sx, sh] (PyNum.float c) = Except.error "TypeError") := by
  refine ⟨?_, by decide, fun sx sh c => rfl⟩
  rcases shape with _ | ⟨a, _ | ⟨b, rest⟩⟩
  · simp at h
  · simp at h
  · rfl

/-- Witness for C10 (amended) at the shape `[2, 8]`. -/
theorem ortho_initializer_name_error_witness :
    2 ≤ ([2, 8] : List ℕ).length ∧
    (lstm_ortho_initializer_apply 1 [2, 8] = Except.error "NameError" ∧
     "np" ∉ moduleBoundNames ∧
     (∀ (sx sh : ℕ) (c : ℝ),
       pyListMulNum [sx, sh] (PyNum.float c) = Except.error "TypeError")) :=
  ⟨by decide, ortho_initializer_name_error 1 [2, 8] (by decide)⟩
